import Mathlib

/-!
Shallow embedding of the schema and managed-account resource adapters of
terraform-provider-snowflake (pkg/resources/schema.go and
pkg/resources/managed_account.go), together with models of the pieces of
their environment that those files use: the Terraform SDK attribute bag,
the database handle, Go's strings.Split, and the snowflake statement
builder package.

Each adapter function is embedded as a pure function from a database
oracle and a ResourceData value to the updated ResourceData, a trace of
its observable effects, and its result.
-/

/-- A typed attribute value in the Terraform attribute bag (string, bool or int). -/
inductive AttrVal where
  | s (v : String)
  | b (v : Bool)
  | i (v : Int)
deriving DecidableEq, Repr

/-- Model of the Terraform SDK ResourceData handle: the resource ID plus the
attribute bag, stored as an association list in which the most recent setting
of a key comes first. -/
structure ResourceData where
  id : String
  attrs : List (String × AttrVal)
deriving DecidableEq, Repr

/-- Look an attribute up in the bag (most recent setting wins). -/
def ResourceData.lookupAttr (d : ResourceData) (k : String) : Option AttrVal :=
  d.attrs.lookup k

/-- Models `data.Get(k).(string)`: the stored string, or the zero value "". -/
def ResourceData.getStr (d : ResourceData) (k : String) : String :=
  match d.lookupAttr k with
  | some (AttrVal.s v) => v
  | _ => ""

/-- Models `data.Get(k).(bool)`: the stored bool, or the zero value false. -/
def ResourceData.getBool (d : ResourceData) (k : String) : Bool :=
  match d.lookupAttr k with
  | some (AttrVal.b v) => v
  | _ => false

/-- Models `data.Get(k).(int)`: the stored int, or the zero value 0. -/
def ResourceData.getInt (d : ResourceData) (k : String) : Int :=
  match d.lookupAttr k with
  | some (AttrVal.i v) => v
  | _ => 0

/-- Models the Terraform SDK's `data.GetOk(k)`: the second return value of
GetOk is false when the stored value is the type's zero value ("" / false / 0),
so such a value is reported as unset; here the unset case is `none`. -/
def ResourceData.getOk (d : ResourceData) (k : String) : Option AttrVal :=
  match d.lookupAttr k with
  | some (AttrVal.s v) => if v = "" then none else some (AttrVal.s v)
  | some (AttrVal.b v) => if v = false then none else some (AttrVal.b v)
  | some (AttrVal.i v) => if v = 0 then none else some (AttrVal.i v)
  | none => none

/-- Models `data.Set(k, v)` (always succeeds in this model). -/
def ResourceData.set (d : ResourceData) (k : String) (v : AttrVal) : ResourceData :=
  { d with attrs := (k, v) :: d.attrs }

/-- Models `data.SetId(v)`. -/
def ResourceData.SetId (d : ResourceData) (v : String) : ResourceData :=
  { d with id := v }

/-- Observable effects of one adapter call: statement execution (DBExec), a row
query (db.QueryRow / db.Query), attribute-bag writes, ID writes, partial-state
bookkeeping (data.Partial / data.SetPartial), and sleeping. -/
inductive Event where
  | Exec (q : String)
  | Query (q : String)
  | Set (k : String) (v : AttrVal)
  | SetId (v : String)
  | SetPartial (k : String)
  | Partial (flag : Bool)
  | Sleep (seconds : Nat)
deriving DecidableEq, Repr

/-- The column set ReadSchema scans from one SHOW SCHEMAS row (sql.NullString
columns modelled as String — NullString.String reads NULL back as "" — and the
NullInt64 retention column as Int, as NullInt64.Int64 yields). -/
structure SchemaRow where
  createdOn : String
  name : String
  isDefault : String
  isCurrent : String
  databaseName : String
  owner : String
  comment : String
  options : String
  retentionTime : Int
deriving DecidableEq, Repr

/-- The column set ReadManagedAccount scans from one SHOW MANAGED ACCOUNTS row. -/
structure MARow where
  name : String
  cloud : String
  region : String
  locator : String
  createdOn : String
  url : String
  isReader : Bool
  comment : String
deriving DecidableEq, Repr

/-- Model of the shared database handle: oracles giving the outcome of
executing a statement (DBExec), of QueryRow + Scan against the schema and
managed-account column sets, and of db.Query (how many rows the cursor
yields; an error models a failing Query call). -/
structure Db where
  exec : String → Except String Unit
  queryRowSchema : String → Except String SchemaRow
  queryRowMA : String → Except String MARow
  queryRows : String → Except String Nat

/-- Models Go's strings.Split with a one-character separator (the form used
with the "|" ID delimiter): splitting "" gives [""], and n separators give
n + 1 components. -/
def splitOnChar (sep : Char) : List Char → List (List Char)
  | [] => [[]]
  | c :: cs =>
    if c = sep then [] :: splitOnChar sep cs
    else
      match splitOnChar sep cs with
      | [] => [[c]]
      | h :: t => (c :: h) :: t

/-- Models Go's strings.Split with a two-character separator (the form used
with the ", " options separator), scanning left to right for the first
occurrence of the separator pair. -/
def splitOnPair (a b : Char) : List Char → List (List Char)
  | [] => [[]]
  | [c] => [[c]]
  | c :: d :: rest =>
    if c = a ∧ d = b then [] :: splitOnPair a b rest
    else
      match splitOnPair a b (d :: rest) with
      | [] => [[c]]
      | h :: t => (c :: h) :: t

/-- splitSchemaID (schema.go lines 277-284): split the ID on "|"; any
component count other than 2 is an error naming the offending value. -/
def splitSchemaID (v : String) : Except String (String × String) :=
  match (splitOnChar '|' v.data).map List.asString with
  | [d, s] => Except.ok (d, s)
  | _ => Except.error ("ID " ++ v ++ " is invalid")

/-- Modelled from the spec: the snowflake schema statement builder
(pkg/snowflake/schema.go, which is not under src/). It accumulates the
optional clauses (comment, retention, transient/managed flags) and renders
statements containing exactly the clauses for the set options. -/
structure SchemaBuilder where
  name : String
  db : String
  comment : Option String := none
  transient : Bool := false
  managed : Bool := false
  retention : Option Int := none
deriving DecidableEq, Repr

/-- Modelled from the spec: the double-quoted database-qualified name used in
the rendered statements. -/
def SchemaBuilder.qualifiedName (b : SchemaBuilder) : String :=
  "\"" ++ b.db ++ "\".\"" ++ b.name ++ "\""

/-- Modelled from the spec: render the CREATE statement with exactly the
clauses corresponding to the set options. -/
def SchemaBuilder.Create (b : SchemaBuilder) : String :=
  "CREATE " ++ (if b.transient then "TRANSIENT " else "") ++ "SCHEMA "
    ++ b.qualifiedName
    ++ (if b.managed then " WITH MANAGED ACCESS" else "")
    ++ (match b.retention with
        | some n => " DATA_RETENTION_TIME_IN_DAYS = " ++ toString n
        | none => "")
    ++ (match b.comment with
        | some c => " COMMENT = '" ++ c ++ "'"
        | none => "")

/-- Modelled from the spec: render the SHOW statement locating this schema. -/
def SchemaBuilder.Show (b : SchemaBuilder) : String :=
  "SHOW SCHEMAS LIKE '" ++ b.name ++ "' IN DATABASE \"" ++ b.db ++ "\""

/-- Modelled from the spec: render the DROP statement. -/
def SchemaBuilder.Drop (b : SchemaBuilder) : String :=
  "DROP SCHEMA " ++ b.qualifiedName

/-- Modelled from the spec: render the ALTER statement changing the comment. -/
def SchemaBuilder.ChangeComment (b : SchemaBuilder) (c : String) : String :=
  "ALTER SCHEMA " ++ b.qualifiedName ++ " SET COMMENT = '" ++ c ++ "'"

/-- Modelled from the spec: render the ALTER statement enabling managed access. -/
def SchemaBuilder.Manage (b : SchemaBuilder) : String :=
  "ALTER SCHEMA " ++ b.qualifiedName ++ " ENABLE MANAGED ACCESS"

/-- Modelled from the spec: render the ALTER statement disabling managed access. -/
def SchemaBuilder.Unmanage (b : SchemaBuilder) : String :=
  "ALTER SCHEMA " ++ b.qualifiedName ++ " DISABLE MANAGED ACCESS"

/-- Modelled from the spec: render the ALTER statement changing the retention days. -/
def SchemaBuilder.ChangeDataRetentionDays (b : SchemaBuilder) (n : Int) : String :=
  "ALTER SCHEMA " ++ b.qualifiedName ++ " SET DATA_RETENTION_TIME_IN_DAYS = " ++ toString n

/-- The tokens of the options column: the Go code splits on ", " only when the
options string is nonempty (ReadSchema lines 158-159). -/
def schemaOptionTokens (opts : String) : List String :=
  if opts = "" then [] else (splitOnPair ',' ' ' opts.data).map List.asString

/-- The option loop of ReadSchema (lines 159-172): for each token, TRANSIENT
sets is_transient true and MANAGED sets is_managed true; other tokens are
ignored. Returns the updated bag and the Set events the loop performs. -/
def applySchemaOptions : List String → ResourceData → ResourceData × List Event
  | [], d => (d, [])
  | opt :: rest, d =>
    if opt = "TRANSIENT" then
      let step := applySchemaOptions rest (d.set "is_transient" (AttrVal.b true))
      (step.1, Event.Set "is_transient" (AttrVal.b true) :: step.2)
    else if opt = "MANAGED" then
      let step := applySchemaOptions rest (d.set "is_managed" (AttrVal.b true))
      (step.1, Event.Set "is_managed" (AttrVal.b true) :: step.2)
    else applySchemaOptions rest d

/-- ReadSchema (schema.go lines 110-176): parse the composite ID, run the SHOW
query, scan one row, set the scanned bag attributes, reset is_transient and
is_managed to false, then re-derive them from the options column. A parse or
scan error is returned as-is. -/
def ReadSchema (db : Db) (data : ResourceData) : ResourceData × List Event × Except String Unit :=
  match splitSchemaID data.id with
  | Except.error e => (data, [], Except.error e)
  | Except.ok (dbName, schemaName) =>
    let q := SchemaBuilder.Show { name := schemaName, db := dbName }
    match db.queryRowSchema q with
    | Except.error e => (data, [Event.Query q], Except.error e)
    | Except.ok row =>
      let d := data.set "name" (AttrVal.s row.name)
      let d := d.set "database" (AttrVal.s row.databaseName)
      let d := d.set "comment" (AttrVal.s row.comment)
      let d := d.set "data_retention_days" (AttrVal.i row.retentionTime)
      let d := d.set "is_transient" (AttrVal.b false)
      let d := d.set "is_managed" (AttrVal.b false)
      let step := applySchemaOptions (schemaOptionTokens row.options) d
      (step.1,
       [Event.Query q,
        Event.Set "name" (AttrVal.s row.name),
        Event.Set "database" (AttrVal.s row.databaseName),
        Event.Set "comment" (AttrVal.s row.comment),
        Event.Set "data_retention_days" (AttrVal.i row.retentionTime),
        Event.Set "is_transient" (AttrVal.b false),
        Event.Set "is_managed" (AttrVal.b false)] ++ step.2,
       Except.ok ())

/-- The comment block of CreateSchema (schema.go lines 80-82): WithComment
when GetOk reports the attribute set. -/
def withCommentOpt (b : SchemaBuilder) (v : Option AttrVal) : SchemaBuilder :=
  match v with
  | some (AttrVal.s c) => { b with comment := some c }
  | _ => b

/-- The is_transient block of CreateSchema (schema.go lines 84-86): Transient
when GetOk reports the attribute set and the value is true. -/
def withTransientOpt (b : SchemaBuilder) (v : Option AttrVal) : SchemaBuilder :=
  match v with
  | some (AttrVal.b t) => if t then { b with transient := true } else b
  | _ => b

/-- The is_managed block of CreateSchema (schema.go lines 88-90): Managed when
GetOk reports the attribute set and the value is true. -/
def withManagedOpt (b : SchemaBuilder) (v : Option AttrVal) : SchemaBuilder :=
  match v with
  | some (AttrVal.b m) => if m then { b with managed := true } else b
  | _ => b

/-- The data_retention_days block of CreateSchema (schema.go lines 92-94):
WithDataRetentionDays when GetOk reports the attribute set. -/
def withRetentionOpt (b : SchemaBuilder) (v : Option AttrVal) : SchemaBuilder :=
  match v with
  | some (AttrVal.i n) => { b with retention := some n }
  | _ => b

/-- The builder construction of CreateSchema (schema.go lines 74-94): the
required name and database attributes plus each optional attribute that
GetOk reports as set. -/
def createSchemaBuilder (data : ResourceData) : SchemaBuilder :=
  withRetentionOpt
    (withManagedOpt
      (withTransientOpt
        (withCommentOpt { name := data.getStr "name", db := data.getStr "database" }
          (data.getOk "comment"))
        (data.getOk "is_transient"))
      (data.getOk "is_managed"))
    (data.getOk "data_retention_days")

/-- CreateSchema (schema.go lines 72-107): build and execute the CREATE
statement; on failure return the error wrapped with the schema name; on
success store the composite ID "database|name" and end by calling ReadSchema. -/
def CreateSchema (db : Db) (data : ResourceData) : ResourceData × List Event × Except String Unit :=
  let name := data.getStr "name"
  let database := data.getStr "database"
  let q := (createSchemaBuilder data).Create
  match db.exec q with
  | Except.error e =>
    (data, [Event.Exec q], Except.error ("error creating schema " ++ name ++ ": " ++ e))
  | Except.ok _ =>
    let d := data.SetId (database ++ "|" ++ name)
    let step := ReadSchema db d
    (step.1, Event.Exec q :: Event.SetId (database ++ "|" ++ name) :: step.2.1, step.2.2)

/-- The per-update change set reported by the Terraform SDK's change tracking:
`some v` models HasChange(k) being true with GetChange(k) returning new value
v; `none` models HasChange(k) being false. -/
structure UpdateDiff where
  comment : Option String
  is_managed : Option Bool
  data_retention_days : Option Int
deriving DecidableEq, Repr

/-- The data_retention_days block of UpdateSchema (schema.go lines 219-230):
data.Partial(false) is called first, then, if the attribute changed, one
ALTER is executed — with no SetPartial call — and the function ends by
calling ReadSchema. -/
def updateSchemaRetention (db : Db) (diff : UpdateDiff) (data : ResourceData)
    (b : SchemaBuilder) (evs : List Event) : ResourceData × List Event × Except String Unit :=
  let evs := evs ++ [Event.Partial false]
  match diff.data_retention_days with
  | some n =>
    let q := b.ChangeDataRetentionDays n
    match db.exec q with
    | Except.error e =>
      (data, evs ++ [Event.Exec q],
       Except.error ("error updating data retention days on " ++ data.id ++ ": " ++ e))
    | Except.ok _ =>
      let step := ReadSchema db data
      (step.1, evs ++ [Event.Exec q] ++ step.2.1, step.2.2)
  | none =>
    let step := ReadSchema db data
    (step.1, evs ++ step.2.1, step.2.2)

/-- The is_managed block of UpdateSchema (schema.go lines 202-217): if the
attribute changed, execute Manage or Unmanage according to the new value,
return the wrapped error on failure, and call SetPartial("is_managed") on
success before falling through to the retention block. -/
def updateSchemaManaged (db : Db) (diff : UpdateDiff) (data : ResourceData)
    (b : SchemaBuilder) (evs : List Event) : ResourceData × List Event × Except String Unit :=
  match diff.is_managed with
  | some m =>
    let q := if m then b.Manage else b.Unmanage
    match db.exec q with
    | Except.error e =>
      (data, evs ++ [Event.Exec q],
       Except.error ("error changing management state on " ++ data.id ++ ": " ++ e))
    | Except.ok _ =>
      updateSchemaRetention db diff data b (evs ++ [Event.Exec q, Event.SetPartial "is_managed"])
  | none => updateSchemaRetention db diff data b evs

/-- UpdateSchema (schema.go lines 179-231): enable partial mode, parse the
composite ID, then run the comment, is_managed and data_retention_days blocks
in order, each executing one ALTER when its attribute changed and returning
the wrapped error on failure. -/
def UpdateSchema (db : Db) (diff : UpdateDiff) (data : ResourceData) :
    ResourceData × List Event × Except String Unit :=
  match splitSchemaID data.id with
  | Except.error e => (data, [Event.Partial true], Except.error e)
  | Except.ok (dbName, schemaName) =>
    let b : SchemaBuilder := { name := schemaName, db := dbName }
    match diff.comment with
    | some c =>
      let q := b.ChangeComment c
      match db.exec q with
      | Except.error e =>
        (data, [Event.Partial true, Event.Exec q],
         Except.error ("error updating schema comment on " ++ data.id ++ ": " ++ e))
      | Except.ok _ =>
        updateSchemaManaged db diff data b
          [Event.Partial true, Event.Exec q, Event.SetPartial "comment"]
    | none => updateSchemaManaged db diff data b [Event.Partial true]

/-- DeleteSchema (schema.go lines 234-251): parse the composite ID, execute the
DROP statement, wrap a failure with the ID, and clear the ID on success. -/
def DeleteSchema (db : Db) (data : ResourceData) : ResourceData × List Event × Except String Unit :=
  match splitSchemaID data.id with
  | Except.error e => (data, [], Except.error e)
  | Except.ok (dbName, schemaName) =>
    let q := SchemaBuilder.Drop { name := schemaName, db := dbName }
    match db.exec q with
    | Except.error e =>
      (data, [Event.Exec q], Except.error ("error deleting schema " ++ data.id ++ ": " ++ e))
    | Except.ok _ => (data.SetId "", [Event.Exec q, Event.SetId ""], Except.ok ())

/-- SchemaExists (schema.go lines 254-273): parse the composite ID, run the
SHOW query; a query error is returned as an error, otherwise the result is
whether the cursor yields at least one row. -/
def SchemaExists (db : Db) (data : ResourceData) : Except String Bool :=
  match splitSchemaID data.id with
  | Except.error e => Except.error e
  | Except.ok (dbName, schemaName) =>
    let q := SchemaBuilder.Show { name := schemaName, db := dbName }
    match db.queryRows q with
    | Except.error e => Except.error e
    | Except.ok n => Except.ok (decide (0 < n))

/-- Modelled from the spec: the managed-account statement builder's SHOW
statement (pkg/snowflake, not under src/). -/
def managedAccountShow (name : String) : String :=
  "SHOW MANAGED ACCOUNTS LIKE '" ++ name ++ "'"

/-- Modelled from the spec: the managed-account CREATE statement built by
CreateResource from the declared property list (admin_name, admin_password,
type, comment), pkg/snowflake and pkg/resources/resource.go not being under
src/. -/
def managedAccountCreate (name adminName adminPassword accountType comment : String) : String :=
  "CREATE MANAGED ACCOUNT \"" ++ name ++ "\""
    ++ " ADMIN_NAME = '" ++ adminName ++ "'"
    ++ " ADMIN_PASSWORD = '" ++ adminPassword ++ "'"
    ++ " TYPE = " ++ accountType
    ++ " COMMENT = '" ++ comment ++ "'"

/-- ReadManagedAccount (managed_account.go lines 125-180): run the SHOW query
for the ID, scan one row (error returned as-is), set the scanned attributes,
set type to READER when the is-reader column is true and fail otherwise,
then set the comment. -/
def ReadManagedAccount (db : Db) (data : ResourceData) :
    ResourceData × List Event × Except String Unit :=
  let stmt := managedAccountShow data.id
  match db.queryRowMA stmt with
  | Except.error e => (data, [Event.Query stmt], Except.error e)
  | Except.ok row =>
    let d := data.set "name" (AttrVal.s row.name)
    let d := d.set "cloud" (AttrVal.s row.cloud)
    let d := d.set "region" (AttrVal.s row.region)
    let d := d.set "locator" (AttrVal.s row.locator)
    let d := d.set "created_on" (AttrVal.s row.createdOn)
    let d := d.set "url" (AttrVal.s row.url)
    let baseEvs :=
      [Event.Query stmt,
       Event.Set "name" (AttrVal.s row.name),
       Event.Set "cloud" (AttrVal.s row.cloud),
       Event.Set "region" (AttrVal.s row.region),
       Event.Set "locator" (AttrVal.s row.locator),
       Event.Set "created_on" (AttrVal.s row.createdOn),
       Event.Set "url" (AttrVal.s row.url)]
    if row.isReader then
      let d := d.set "type" (AttrVal.s "READER")
      let d := d.set "comment" (AttrVal.s row.comment)
      (d, baseEvs ++ [Event.Set "type" (AttrVal.s "READER"),
                      Event.Set "comment" (AttrVal.s row.comment)],
       Except.ok ())
    else (d, baseEvs, Except.error "Unable to determine the account type")

/-- initialReadManagedAccount (managed_account.go lines 118-122): sleep a fixed
10 seconds, then perform exactly one ReadManagedAccount. -/
def initialReadManagedAccount (db : Db) (data : ResourceData) :
    ResourceData × List Event × Except String Unit :=
  let step := ReadManagedAccount db data
  (step.1, Event.Sleep 10 :: step.2.1, step.2.2)

/-- CreateManagedAccount (managed_account.go lines 105-113). Modelled from the
spec for the CreateResource glue (pkg/resources/resource.go is not under
src/): read the declared properties from the bag, build and execute the
CREATE statement, store the name as the ID, then invoke the supplied first
read, which here is initialReadManagedAccount. -/
def CreateManagedAccount (db : Db) (data : ResourceData) :
    ResourceData × List Event × Except String Unit :=
  let name := data.getStr "name"
  let q := managedAccountCreate name (data.getStr "admin_name")
    (data.getStr "admin_password") (data.getStr "type") (data.getStr "comment")
  match db.exec q with
  | Except.error e =>
    (data, [Event.Exec q], Except.error ("error creating managed account " ++ name ++ ": " ++ e))
  | Except.ok _ =>
    let d := data.SetId name
    let step := initialReadManagedAccount db d
    (step.1, Event.Exec q :: Event.SetId name :: step.2.1, step.2.2)

/-- ManagedAccountExists (managed_account.go lines 188-203): run the SHOW query
for the ID; a query error is returned as an error, otherwise the result is
whether the cursor yields at least one row. -/
def ManagedAccountExists (db : Db) (data : ResourceData) : Except String Bool :=
  let stmt := managedAccountShow data.id
  match db.queryRows stmt with
  | Except.error e => Except.error e
  | Except.ok n => Except.ok (decide (0 < n))

/-- The validator attached to data_retention_days in schemaSchema (schema.go
line 51): validation.IntBetween(0, 90). -/
def dataRetentionDaysValidator (v : Int) : Bool :=
  0 ≤ v && v ≤ 90

/-- The comment-block events of a successful UpdateSchema pass, as a function
of the change set (used to state the update contract). -/
def updateCommentEvs (b : SchemaBuilder) (diff : UpdateDiff) : List Event :=
  match diff.comment with
  | some c => [Event.Exec (b.ChangeComment c), Event.SetPartial "comment"]
  | none => []

/-- The is_managed-block events of a successful UpdateSchema pass, as a
function of the change set. -/
def updateManagedEvs (b : SchemaBuilder) (diff : UpdateDiff) : List Event :=
  match diff.is_managed with
  | some m => [Event.Exec (if m then b.Manage else b.Unmanage), Event.SetPartial "is_managed"]
  | none => []

/-- The data_retention_days-block events of a successful UpdateSchema pass, as
a function of the change set: one ALTER and, notably, no SetPartial. -/
def updateRetentionEvs (b : SchemaBuilder) (diff : UpdateDiff) : List Event :=
  match diff.data_retention_days with
  | some n => [Event.Exec (b.ChangeDataRetentionDays n)]
  | none => []

/-- Recognizer for Query events (used to count row queries in a trace). -/
def isQueryEv : Event → Bool
  | Event.Query _ => true
  | _ => false

/-- A sample SHOW SCHEMAS row with an empty options column. -/
def sampleSchemaRow : SchemaRow :=
  { createdOn := "2019-01-01", name := "S", isDefault := "N", isCurrent := "N",
    databaseName := "D", owner := "OWNER", comment := "", options := "", retentionTime := 1 }

/-- A sample row whose options column carries TRANSIENT and retention 5. -/
def transientSchemaRow : SchemaRow :=
  { sampleSchemaRow with options := "TRANSIENT", retentionTime := 5 }

/-- A sample row whose options column carries MANAGED. -/
def managedSchemaRow : SchemaRow :=
  { sampleSchemaRow with options := "MANAGED" }

/-- A sample SHOW MANAGED ACCOUNTS row. -/
def sampleMARow : MARow :=
  { name := "MA", cloud := "AWS", region := "us-west-2", locator := "LOC",
    createdOn := "2019-01-01", url := "https://account.example", isReader := true, comment := "" }

/-- A database oracle on which every call succeeds, the schema row being r. -/
def okDbWith (r : SchemaRow) : Db :=
  { exec := fun _ => Except.ok (), queryRowSchema := fun _ => Except.ok r,
    queryRowMA := fun _ => Except.ok sampleMARow, queryRows := fun _ => Except.ok 1 }

/-- A database oracle on which every call succeeds with the plain sample row. -/
def allOkDb : Db := okDbWith sampleSchemaRow

/-- A database oracle on which every call fails. -/
def errDb : Db :=
  { exec := fun _ => Except.error "connection lost",
    queryRowSchema := fun _ => Except.error "connection lost",
    queryRowMA := fun _ => Except.error "connection lost",
    queryRows := fun _ => Except.error "connection lost" }

/-- A schema resource data value carrying the composite ID D|S. -/
def sampleSchemaData : ResourceData := { id := "D|S", attrs := [] }

/-- The bag of the end-to-end create scenario: schema S in database D with
is_transient true and data_retention_days 5. -/
def createBagTransient : ResourceData :=
  { id := "",
    attrs := [("name", AttrVal.s "S"), ("database", AttrVal.s "D"),
              ("is_transient", AttrVal.b true), ("data_retention_days", AttrVal.i 5)] }

/-- A managed-account create bag. -/
def maBag : ResourceData :=
  { id := "",
    attrs := [("name", AttrVal.s "MA"), ("admin_name", AttrVal.s "ADMIN"),
              ("admin_password", AttrVal.s "Secret123"), ("type", AttrVal.s "READER")] }

theorem asString_data (s : String) : List.asString s.data = s := by
  cases s
  rfl

theorem splitOnChar_ne_nil (sep : Char) (l : List Char) : splitOnChar sep l ≠ [] := by
  induction l with
  | nil => simp [splitOnChar]
  | cons c cs ih =>
    simp only [splitOnChar]
    split
    · simp
    · split
      · simp
      · simp

theorem splitOnChar_length (sep : Char) (l : List Char) :
    (splitOnChar sep l).length = l.count sep + 1 := by
  induction l with
  | nil => simp [splitOnChar]
  | cons c cs ih =>
    by_cases h : c = sep
    · subst h
      simp [splitOnChar, List.count_cons, ih]
    · simp only [splitOnChar, if_neg h]
      cases hs : splitOnChar sep cs with
      | nil => exact absurd hs (splitOnChar_ne_nil sep cs)
      | cons h0 t =>
        rw [hs] at ih
        simp only [List.length_cons] at ih
        simp [List.count_cons, h, ih]

theorem splitOnChar_not_mem (sep : Char) (l : List Char) (h : sep ∉ l) :
    splitOnChar sep l = [l] := by
  induction l with
  | nil => rfl
  | cons c cs ih =>
    have hc : ¬ c = sep := by
      rintro rfl
      exact h (List.mem_cons_self _ _)
    have hcs : sep ∉ cs := fun hm => h (List.mem_cons_of_mem _ hm)
    simp only [splitOnChar, if_neg hc, ih hcs]

theorem splitOnChar_append (sep : Char) (a b : List Char) (h : sep ∉ a) :
    splitOnChar sep (a ++ sep :: b) = a :: splitOnChar sep b := by
  induction a with
  | nil => simp [splitOnChar]
  | cons c cs ih =>
    have hc : ¬ c = sep := by
      rintro rfl
      exact h (List.mem_cons_self _ _)
    have hcs : sep ∉ cs := fun hm => h (List.mem_cons_of_mem _ hm)
    simp only [List.cons_append, splitOnChar, List.append_eq, if_neg hc, ih hcs]

theorem splitSchemaID_error (s : String) (h : s.data.count '|' ≠ 1) :
    splitSchemaID s = Except.error ("ID " ++ s ++ " is invalid") := by
  unfold splitSchemaID
  have hlen := splitOnChar_length '|' s.data
  cases hsp : splitOnChar '|' s.data with
  | nil => exact absurd hsp (splitOnChar_ne_nil _ _)
  | cons x t =>
    cases t with
    | nil => simp [hsp]
    | cons y t2 =>
      cases t2 with
      | nil =>
        rw [hsp] at hlen
        simp at hlen
        omega
      | cons z t3 => simp [hsp]

theorem splitSchemaID_append (db name : String)
    (hd : '|' ∉ db.data) (hn : '|' ∉ name.data) :
    splitSchemaID (db ++ "|" ++ name) = Except.ok (db, name) := by
  unfold splitSchemaID
  have hdata : (db ++ "|" ++ name).data = db.data ++ '|' :: name.data := by
    rw [String.data_append, String.data_append]
    simp
  rw [hdata, splitOnChar_append _ _ _ hd, splitOnChar_not_mem _ _ hn]
  simp [asString_data]

/-- C4: for every pair of pipe-free component strings (database, name) — the
well-formed two-component IDs — splitSchemaID decodes the string produced by
encoding them as "database|name" back to exactly those components, and
splitSchemaID returns a descriptive error naming the input for every string
whose pipe-delimited component count is not exactly 2. -/
theorem splitSchemaID_roundtrip (db name : String)
    (hd : '|' ∉ db.data) (hn : '|' ∉ name.data) :
    splitSchemaID (db ++ "|" ++ name) = Except.ok (db, name)
    ∧ ∀ s : String, ((splitOnChar '|' s.data).map List.asString).length ≠ 2 →
        splitSchemaID s = Except.error ("ID " ++ s ++ " is invalid") := by
  refine ⟨splitSchemaID_append db name hd hn, ?_⟩
  intro s hs
  apply splitSchemaID_error
  rw [List.length_map, splitOnChar_length] at hs
  omega

/-- Concrete instance of C4: "D|S" decodes back to (D, S), and the pipe-free
string "DS" is rejected with the descriptive error. -/
theorem splitSchemaID_roundtrip_witness :
    splitSchemaID ("D" ++ "|" ++ "S") = Except.ok ("D", "S")
    ∧ splitSchemaID "DS" = Except.error ("ID " ++ "DS" ++ " is invalid") :=
  ⟨(splitSchemaID_roundtrip "D" "S" (by decide) (by decide)).1,
   (splitSchemaID_roundtrip "D" "S" (by decide) (by decide)).2 "DS" (by decide)⟩

/-- C10: splitSchemaID succeeds exactly on the strings containing one pipe
character and performs no emptiness validation on the components: "|" decodes
to two empty components, and an input decodes successfully precisely when its
pipe count is 1 (so no pipe, or more than one pipe, is the only way it
errors). -/
theorem splitSchemaID_single_pipe :
    splitSchemaID "|" = Except.ok ("", "")
    ∧ (∀ s : String, (∃ d n, splitSchemaID s = Except.ok (d, n)) ↔ s.data.count '|' = 1) := by
  constructor
  · rfl
  · intro s
    constructor
    · intro ⟨d, n, hok⟩
      by_contra h
      rw [splitSchemaID_error s h] at hok
      exact Except.noConfusion hok
    · intro h
      have hlen := splitOnChar_length '|' s.data
      rw [h] at hlen
      cases hsp : splitOnChar '|' s.data with
      | nil => exact absurd hsp (splitOnChar_ne_nil _ _)
      | cons x t =>
        cases t with
        | nil =>
          rw [hsp] at hlen
          simp at hlen
        | cons y t2 =>
          cases t2 with
          | nil =>
            refine ⟨List.asString x, List.asString y, ?_⟩
            unfold splitSchemaID
            rw [hsp]
            rfl
          | cons z t3 =>
            rw [hsp] at hlen
            simp at hlen

/-- C2: for both Exists functions (SchemaExists, ManagedAccountExists) the
result is ok true exactly when the SHOW query succeeds with at least one row,
ok false exactly when it succeeds with zero rows, and a query execution error
is propagated as an error rather than converted into a false result. -/
theorem Exists_row_iff (db : Db) (data d2 : ResourceData) (dn sn : String)
    (hid : splitSchemaID data.id = Except.ok (dn, sn)) :
    (∀ n, db.queryRows (SchemaBuilder.Show { name := sn, db := dn }) = Except.ok n →
        SchemaExists db data = Except.ok (decide (0 < n)))
    ∧ (∀ e, db.queryRows (SchemaBuilder.Show { name := sn, db := dn }) = Except.error e →
        SchemaExists db data = Except.error e)
    ∧ (∀ n, db.queryRows (managedAccountShow d2.id) = Except.ok n →
        ManagedAccountExists db d2 = Except.ok (decide (0 < n)))
    ∧ (∀ e, db.queryRows (managedAccountShow d2.id) = Except.error e →
        ManagedAccountExists db d2 = Except.error e) := by
  refine ⟨?_, ?_, ?_, ?_⟩ <;> intro x hx <;>
    simp [SchemaExists, ManagedAccountExists, hid, hx]

/-- Concrete instance of C2: one row gives ok true without error, and a failing
query propagates its error for both Exists functions. -/
theorem Exists_row_iff_witness :
    SchemaExists allOkDb sampleSchemaData = Except.ok true
    ∧ SchemaExists errDb sampleSchemaData = Except.error "connection lost"
    ∧ ManagedAccountExists allOkDb sampleSchemaData = Except.ok true
    ∧ ManagedAccountExists errDb sampleSchemaData = Except.error "connection lost" := by
  have h1 := Exists_row_iff allOkDb sampleSchemaData sampleSchemaData "D" "S" rfl
  have h2 := Exists_row_iff errDb sampleSchemaData sampleSchemaData "D" "S" rfl
  exact ⟨h1.1 1 rfl, h2.2.1 "connection lost" rfl,
         h1.2.2.1 1 rfl, h2.2.2.2 "connection lost" rfl⟩

/-- C6: for both Read functions a row-scan failure of any kind is returned
as-is: the unchanged error value becomes the result, so a missing row is not
distinguished from any other scan or query failure and no typed not-found
signal is produced at the Read interface. -/
theorem Read_error_asis (db : Db) (data d2 : ResourceData) (dn sn : String) (e : String)
    (hid : splitSchemaID data.id = Except.ok (dn, sn)) :
    (db.queryRowSchema (SchemaBuilder.Show { name := sn, db := dn }) = Except.error e →
        ReadSchema db data
          = (data, [Event.Query (SchemaBuilder.Show { name := sn, db := dn })], Except.error e))
    ∧ (db.queryRowMA (managedAccountShow d2.id) = Except.error e →
        ReadManagedAccount db d2
          = (d2, [Event.Query (managedAccountShow d2.id)], Except.error e)) := by
  constructor <;> intro hq <;> simp [ReadSchema, ReadManagedAccount, hid, hq]

/-- Concrete instance of C6: a failing scan surfaces its error text unchanged
from both Read functions. -/
theorem Read_error_asis_witness :
    ReadSchema errDb sampleSchemaData
      = (sampleSchemaData, [Event.Query "SHOW SCHEMAS LIKE 'S' IN DATABASE \"D\""],
         Except.error "connection lost")
    ∧ ReadManagedAccount errDb sampleSchemaData
      = (sampleSchemaData, [Event.Query "SHOW MANAGED ACCOUNTS LIKE 'D|S'"],
         Except.error "connection lost") := by
  have h := Read_error_asis errDb sampleSchemaData sampleSchemaData "D" "S" "connection lost" rfl
  exact ⟨h.1 rfl, h.2 rfl⟩

/-- C7: DeleteSchema parses the composite ID, executes the DROP statement, and
clears the ID only when the DROP succeeds: a parse error or execution error is
returned with the data (including its ID) unchanged, and on success the ID is
set to the empty string. -/
theorem DeleteSchema_contract (db : Db) (data : ResourceData) :
    (∀ e, splitSchemaID data.id = Except.error e →
        DeleteSchema db data = (data, [], Except.error e))
    ∧ (∀ dn sn, splitSchemaID data.id = Except.ok (dn, sn) →
        (∀ e, db.exec (SchemaBuilder.Drop { name := sn, db := dn }) = Except.error e →
            DeleteSchema db data
              = (data, [Event.Exec (SchemaBuilder.Drop { name := sn, db := dn })],
                 Except.error ("error deleting schema " ++ data.id ++ ": " ++ e)))
        ∧ (db.exec (SchemaBuilder.Drop { name := sn, db := dn }) = Except.ok () →
            DeleteSchema db data
              = (data.SetId "",
                 [Event.Exec (SchemaBuilder.Drop { name := sn, db := dn }), Event.SetId ""],
                 Except.ok ()))) := by
  refine ⟨?_, ?_⟩
  · intro e he
    simp [DeleteSchema, he]
  · intro dn sn hok
    refine ⟨?_, ?_⟩
    · intro e he
      simp [DeleteSchema, hok, he]
    · intro he
      simp [DeleteSchema, hok, he]

/-- Concrete instance of C7: success clears the ID, a failing DROP returns the
wrapped error with the ID intact, and a malformed ID returns its parse error
without any execution. -/
theorem DeleteSchema_contract_witness :
    DeleteSchema allOkDb sampleSchemaData
      = (sampleSchemaData.SetId "",
         [Event.Exec "DROP SCHEMA \"D\".\"S\"", Event.SetId ""], Except.ok ())
    ∧ DeleteSchema errDb sampleSchemaData
      = (sampleSchemaData, [Event.Exec "DROP SCHEMA \"D\".\"S\""],
         Except.error ("error deleting schema D|S: connection lost"))
    ∧ DeleteSchema allOkDb { id := "DS", attrs := [] }
      = ({ id := "DS", attrs := [] }, [], Except.error "ID DS is invalid") := by
  refine ⟨?_, ?_, ?_⟩
  · exact ((DeleteSchema_contract allOkDb sampleSchemaData).2 "D" "S" rfl).2 rfl
  · exact ((DeleteSchema_contract errDb sampleSchemaData).2 "D" "S" rfl).1 "connection lost" rfl
  · exact (DeleteSchema_contract allOkDb { id := "DS", attrs := [] }).1 "ID DS is invalid" rfl

theorem getBool_set_same (d : ResourceData) (k : String) (x : Bool) :
    (d.set k (AttrVal.b x)).getBool k = x := by
  simp [ResourceData.set, ResourceData.getBool, ResourceData.lookupAttr, List.lookup]

theorem getBool_set_other (d : ResourceData) (k k' : String) (v : AttrVal) (h : k' ≠ k) :
    (d.set k v).getBool k' = d.getBool k' := by
  have hbeq : (k' == k) = false := beq_eq_false_iff_ne.mpr h
  simp [ResourceData.set, ResourceData.getBool, ResourceData.lookupAttr, List.lookup, hbeq]

theorem applySchemaOptions_transient (l : List String) (d : ResourceData) :
    ((applySchemaOptions l d).1).getBool "is_transient"
      = (d.getBool "is_transient" || l.contains "TRANSIENT") := by
  induction l generalizing d with
  | nil => simp [applySchemaOptions]
  | cons opt rest ih =>
    by_cases h1 : opt = "TRANSIENT"
    · subst h1
      simp [applySchemaOptions, ih, getBool_set_same, List.contains_cons]
    · by_cases h2 : opt = "MANAGED"
      · subst h2
        simp [applySchemaOptions, ih, getBool_set_other, List.contains_cons]
      · simp [applySchemaOptions, h1, h2, ih, List.contains_cons, beq_iff_eq, Ne.symm h1]

theorem applySchemaOptions_managed (l : List String) (d : ResourceData) :
    ((applySchemaOptions l d).1).getBool "is_managed"
      = (d.getBool "is_managed" || l.contains "MANAGED") := by
  induction l generalizing d with
  | nil => simp [applySchemaOptions]
  | cons opt rest ih =>
    by_cases h1 : opt = "TRANSIENT"
    · subst h1
      simp [applySchemaOptions, ih, getBool_set_other, List.contains_cons]
    · by_cases h2 : opt = "MANAGED"
      · subst h2
        simp [applySchemaOptions, ih, getBool_set_same, List.contains_cons]
      · simp [applySchemaOptions, h1, h2, ih, List.contains_cons, beq_iff_eq, Ne.symm h2]

theorem applySchemaOptions_events (l : List String) (d : ResourceData) :
    ∀ ev ∈ (applySchemaOptions l d).2,
      (ev = Event.Set "is_transient" (AttrVal.b true) ∧ "TRANSIENT" ∈ l)
      ∨ (ev = Event.Set "is_managed" (AttrVal.b true) ∧ "MANAGED" ∈ l) := by
  induction l generalizing d with
  | nil =>
    intro ev h
    simp [applySchemaOptions] at h
  | cons opt rest ih =>
    intro ev h
    by_cases h1 : opt = "TRANSIENT"
    · subst h1
      simp only [applySchemaOptions, if_pos rfl] at h
      rcases List.mem_cons.mp h with h2 | h2
      · exact Or.inl ⟨h2, List.mem_cons_self _ _⟩
      · rcases ih _ ev h2 with ⟨he, hm⟩ | ⟨he, hm⟩
        · exact Or.inl ⟨he, List.mem_cons_of_mem _ hm⟩
        · exact Or.inr ⟨he, List.mem_cons_of_mem _ hm⟩
    · by_cases h2 : opt = "MANAGED"
      · subst h2
        simp only [applySchemaOptions, if_neg h1, if_pos rfl] at h
        rcases List.mem_cons.mp h with h3 | h3
        · exact Or.inr ⟨h3, List.mem_cons_self _ _⟩
        · rcases ih _ ev h3 with ⟨he, hm⟩ | ⟨he, hm⟩
          · exact Or.inl ⟨he, List.mem_cons_of_mem _ hm⟩
          · exact Or.inr ⟨he, List.mem_cons_of_mem _ hm⟩
      · simp only [applySchemaOptions, if_neg h1, if_neg h2] at h
        rcases ih _ ev h with ⟨he, hm⟩ | ⟨he, hm⟩
        · exact Or.inl ⟨he, List.mem_cons_of_mem _ hm⟩
        · exact Or.inr ⟨he, List.mem_cons_of_mem _ hm⟩

/-- C3: every successful ReadSchema first sets is_transient and is_managed to
false and only afterwards sets one of them to true, and then only when the
corresponding token (TRANSIENT / MANAGED) occurs in the options column; the
final flag values equal exactly the token membership, so an options string
MANAGED followed on a later Read by an empty options string leaves is_managed
false after the second Read. -/
theorem ReadSchema_option_reset (db : Db) (data : ResourceData) (dn sn : String)
    (row : SchemaRow)
    (hid : splitSchemaID data.id = Except.ok (dn, sn))
    (hq : db.queryRowSchema (SchemaBuilder.Show { name := sn, db := dn }) = Except.ok row) :
    (ReadSchema db data).2.2 = Except.ok ()
    ∧ ((ReadSchema db data).1).getBool "is_transient"
        = (schemaOptionTokens row.options).contains "TRANSIENT"
    ∧ ((ReadSchema db data).1).getBool "is_managed"
        = (schemaOptionTokens row.options).contains "MANAGED"
    ∧ ∃ optEvs,
        (ReadSchema db data).2.1
          = [Event.Query (SchemaBuilder.Show { name := sn, db := dn }),
             Event.Set "name" (AttrVal.s row.name),
             Event.Set "database" (AttrVal.s row.databaseName),
             Event.Set "comment" (AttrVal.s row.comment),
             Event.Set "data_retention_days" (AttrVal.i row.retentionTime),
             Event.Set "is_transient" (AttrVal.b false),
             Event.Set "is_managed" (AttrVal.b false)] ++ optEvs
        ∧ ∀ ev ∈ optEvs,
            (ev = Event.Set "is_transient" (AttrVal.b true)
              ∧ "TRANSIENT" ∈ schemaOptionTokens row.options)
            ∨ (ev = Event.Set "is_managed" (AttrVal.b true)
              ∧ "MANAGED" ∈ schemaOptionTokens row.options) := by
  simp only [ReadSchema, hid, hq]
  refine ⟨by trivial, ?_, ?_, ?_⟩
  · rw [applySchemaOptions_transient]
    rw [getBool_set_other _ _ _ _ (by decide), getBool_set_same]
    simp
  · rw [applySchemaOptions_managed, getBool_set_same]
    simp
  · exact ⟨_, rfl, applySchemaOptions_events _ _⟩

/-- Concrete instance of C3: reading options MANAGED sets is_managed true, and
a subsequent Read returning an empty options string flips it back to false. -/
theorem ReadSchema_option_reset_witness :
    ((ReadSchema (okDbWith managedSchemaRow) sampleSchemaData).1).getBool "is_managed" = true
    ∧ ((ReadSchema allOkDb
          ((ReadSchema (okDbWith managedSchemaRow) sampleSchemaData).1)).1).getBool
        "is_managed" = false := by
  have h1 := ReadSchema_option_reset (okDbWith managedSchemaRow) sampleSchemaData
    "D" "S" managedSchemaRow rfl rfl
  have h2 := ReadSchema_option_reset allOkDb
    ((ReadSchema (okDbWith managedSchemaRow) sampleSchemaData).1)
    "D" "S" sampleSchemaRow rfl rfl
  exact ⟨h1.2.2.1.trans (by decide), h2.2.2.1.trans (by decide)⟩

/-- C5: CreateSchema reads the attributes from the bag, builds the CREATE
statement via createSchemaBuilder and executes it; on execution failure the
error is returned wrapped with the schema name and the data — so also its ID —
is unchanged; on success the composite ID "database|name" is stored and
ReadSchema is immediately invoked on the updated data, whose resulting bag,
trace and result are what CreateSchema returns. -/
theorem CreateSchema_contract (db : Db) (data : ResourceData) :
    (∀ e, db.exec (createSchemaBuilder data).Create = Except.error e →
        CreateSchema db data
          = (data, [Event.Exec (createSchemaBuilder data).Create],
             Except.error ("error creating schema " ++ data.getStr "name" ++ ": " ++ e)))
    ∧ (db.exec (createSchemaBuilder data).Create = Except.ok () →
        CreateSchema db data
          = ((ReadSchema db
                (data.SetId (data.getStr "database" ++ "|" ++ data.getStr "name"))).1,
             Event.Exec (createSchemaBuilder data).Create
               :: Event.SetId (data.getStr "database" ++ "|" ++ data.getStr "name")
               :: (ReadSchema db
                    (data.SetId (data.getStr "database" ++ "|" ++ data.getStr "name"))).2.1,
             (ReadSchema db
                (data.SetId (data.getStr "database" ++ "|" ++ data.getStr "name"))).2.2)) := by
  constructor
  · intro e he
    simp [CreateSchema, he]
  · intro he
    simp [CreateSchema, he]

/-- Concrete instance of C5, the end-to-end scenario: schema S in database D
with is_transient true and data_retention_days 5 gives a CREATE statement
containing TRANSIENT and the retention clause 5, stores ID D|S, succeeds, and
the immediate Read populates database, name and is_transient from the row. -/
theorem CreateSchema_contract_witness :
    (createSchemaBuilder createBagTransient).Create
      = "CREATE TRANSIENT SCHEMA \"D\".\"S\" DATA_RETENTION_TIME_IN_DAYS = 5"
    ∧ ((CreateSchema (okDbWith transientSchemaRow) createBagTransient).1).id = "D|S"
    ∧ ((CreateSchema (okDbWith transientSchemaRow) createBagTransient).1).getStr
        "database" = "D"
    ∧ ((CreateSchema (okDbWith transientSchemaRow) createBagTransient).1).getStr
        "name" = "S"
    ∧ ((CreateSchema (okDbWith transientSchemaRow) createBagTransient).1).getBool
        "is_transient" = true
    ∧ (CreateSchema (okDbWith transientSchemaRow) createBagTransient).2.2
        = Except.ok () := by
  have h := (CreateSchema_contract (okDbWith transientSchemaRow) createBagTransient).2 rfl
  refine ⟨by decide, ?_, ?_, ?_, ?_, ?_⟩ <;> rw [h]
  · decide
  · decide
  · decide
  · decide
  · rfl

theorem withCommentOpt_retention (b : SchemaBuilder) (v : Option AttrVal) :
    (withCommentOpt b v).retention = b.retention := by
  rcases v with _ | w
  · rfl
  · rcases w with c | c | c <;> rfl

theorem withTransientOpt_retention (b : SchemaBuilder) (v : Option AttrVal) :
    (withTransientOpt b v).retention = b.retention := by
  rcases v with _ | w
  · rfl
  · rcases w with c | c | c
    · rfl
    · simp only [withTransientOpt]
      split <;> rfl
    · rfl

theorem withManagedOpt_retention (b : SchemaBuilder) (v : Option AttrVal) :
    (withManagedOpt b v).retention = b.retention := by
  rcases v with _ | w
  · rfl
  · rcases w with c | c | c
    · rfl
    · simp only [withManagedOpt]
      split <;> rfl
    · rfl

/-- C9: the schemaSchema validator for data_retention_days accepts 0, yet an
explicit 0 stored in the bag is treated as unset by the GetOk lookup in
CreateSchema: the builder receives no retention clause (retention stays none)
and equals the builder obtained from the same bag with the attribute absent,
so the CREATE statement for retention 0 is identical to the one with
retention unspecified. -/
theorem CreateSchema_retention_zero_unset (id0 : String) (base : List (String × AttrVal))
    (hbase : base.lookup "data_retention_days" = none) :
    dataRetentionDaysValidator 0 = true
    ∧ createSchemaBuilder ⟨id0, ("data_retention_days", AttrVal.i 0) :: base⟩
        = createSchemaBuilder ⟨id0, base⟩
    ∧ (createSchemaBuilder ⟨id0, ("data_retention_days", AttrVal.i 0) :: base⟩).retention
        = none
    ∧ (createSchemaBuilder ⟨id0, ("data_retention_days", AttrVal.i 0) :: base⟩).Create
        = (createSchemaBuilder ⟨id0, base⟩).Create := by
  have hmain : createSchemaBuilder ⟨id0, ("data_retention_days", AttrVal.i 0) :: base⟩
      = createSchemaBuilder ⟨id0, base⟩ := by
    simp [createSchemaBuilder, ResourceData.getStr, ResourceData.getOk,
          ResourceData.lookupAttr, List.lookup, hbase]
  have hret : (createSchemaBuilder ⟨id0, ("data_retention_days", AttrVal.i 0) :: base⟩).retention
      = none := by
    rw [hmain]
    have hnone : (ResourceData.mk id0 base).getOk "data_retention_days" = none := by
      simp [ResourceData.getOk, ResourceData.lookupAttr, hbase]
    simp [createSchemaBuilder, hnone, withRetentionOpt,
          withManagedOpt_retention, withTransientOpt_retention, withCommentOpt_retention]
  exact ⟨rfl, hmain, hret, congrArg SchemaBuilder.Create hmain⟩

/-- Concrete instance of C9: with name S, database D and an explicit retention
of 0, the validator accepts 0 while the built statement carries no retention
clause and equals the statement built with the attribute absent. -/
theorem CreateSchema_retention_zero_unset_witness :
    dataRetentionDaysValidator 0 = true
    ∧ createSchemaBuilder ⟨"", [("data_retention_days", AttrVal.i 0),
        ("name", AttrVal.s "S"), ("database", AttrVal.s "D")]⟩
        = createSchemaBuilder ⟨"", [("name", AttrVal.s "S"), ("database", AttrVal.s "D")]⟩
    ∧ (createSchemaBuilder ⟨"", [("data_retention_days", AttrVal.i 0),
        ("name", AttrVal.s "S"), ("database", AttrVal.s "D")]⟩).retention = none := by
  have h := CreateSchema_retention_zero_unset ""
    [("name", AttrVal.s "S"), ("database", AttrVal.s "D")] (by decide)
  exact ⟨h.1, h.2.1, h.2.2.1⟩

theorem ReadManagedAccount_trace (db : Db) (d : ResourceData) :
    (ReadManagedAccount db d).2.1.countP isQueryEv = 1
    ∧ ∀ s, Event.Sleep s ∉ (ReadManagedAccount db d).2.1 := by
  cases h : db.queryRowMA (managedAccountShow d.id) with
  | error e =>
    constructor
    · simp [ReadManagedAccount, h, isQueryEv]
    · intro s
      simp [ReadManagedAccount, h]
  | ok row =>
    by_cases hr : row.isReader
    · constructor
      · simp [ReadManagedAccount, h, hr, isQueryEv]
      · intro s
        simp [ReadManagedAccount, h, hr]
    · constructor
      · simp [ReadManagedAccount, h, hr, isQueryEv]
      · intro s
        simp [ReadManagedAccount, h, hr]

/-- C8: when the managed-account CREATE statement succeeds, the create path
stores the name as the ID and then performs a single fixed unconditional
10-second sleep, after which exactly one ReadManagedAccount is made: the read
trace contains exactly one row query and no sleep, so there is no polling,
retry or backoff loop. -/
theorem CreateManagedAccount_sleep_then_read (db : Db) (data : ResourceData)
    (hq : db.exec (managedAccountCreate (data.getStr "name") (data.getStr "admin_name")
            (data.getStr "admin_password") (data.getStr "type") (data.getStr "comment"))
          = Except.ok ()) :
    CreateManagedAccount db data
      = ((ReadManagedAccount db (data.SetId (data.getStr "name"))).1,
         Event.Exec (managedAccountCreate (data.getStr "name") (data.getStr "admin_name")
             (data.getStr "admin_password") (data.getStr "type") (data.getStr "comment"))
           :: Event.SetId (data.getStr "name")
           :: Event.Sleep 10
           :: (ReadManagedAccount db (data.SetId (data.getStr "name"))).2.1,
         (ReadManagedAccount db (data.SetId (data.getStr "name"))).2.2)
    ∧ (ReadManagedAccount db (data.SetId (data.getStr "name"))).2.1.countP isQueryEv = 1
    ∧ ∀ s, Event.Sleep s ∉ (ReadManagedAccount db (data.SetId (data.getStr "name"))).2.1 := by
  refine ⟨?_, (ReadManagedAccount_trace db _).1, (ReadManagedAccount_trace db _).2⟩
  simp [CreateManagedAccount, initialReadManagedAccount, hq]

/-- Concrete instance of C8: creating account MA executes the CREATE, stores
the ID, sleeps 10 seconds, and performs a read whose trace holds one query. -/
theorem CreateManagedAccount_sleep_then_read_witness :
    CreateManagedAccount allOkDb maBag
      = ((ReadManagedAccount allOkDb (maBag.SetId "MA")).1,
         Event.Exec (managedAccountCreate "MA" "ADMIN" "Secret123" "READER" "")
           :: Event.SetId "MA" :: Event.Sleep 10
           :: (ReadManagedAccount allOkDb (maBag.SetId "MA")).2.1,
         (ReadManagedAccount allOkDb (maBag.SetId "MA")).2.2)
    ∧ (ReadManagedAccount allOkDb (maBag.SetId "MA")).2.1.countP isQueryEv = 1 := by
  have h := CreateManagedAccount_sleep_then_read allOkDb maBag rfl
  exact ⟨h.1, h.2.1⟩

theorem updateSchemaRetention_success (db : Db) (diff : UpdateDiff) (data : ResourceData)
    (b : SchemaBuilder) (evs : List Event)
    (hr : ∀ n, diff.data_retention_days = some n →
        db.exec (b.ChangeDataRetentionDays n) = Except.ok ()) :
    updateSchemaRetention db diff data b evs
      = ((ReadSchema db data).1,
         evs ++ [Event.Partial false] ++ updateRetentionEvs b diff ++ (ReadSchema db data).2.1,
         (ReadSchema db data).2.2) := by
  cases hd : diff.data_retention_days with
  | none => simp [updateSchemaRetention, updateRetentionEvs, hd]
  | some n =>
    have hx := hr n hd
    simp [updateSchemaRetention, updateRetentionEvs, hd, hx, List.append_assoc]

theorem updateSchemaRetention_fail (db : Db) (diff : UpdateDiff) (data : ResourceData)
    (b : SchemaBuilder) (evs : List Event) (n : Int) (e : String)
    (hd : diff.data_retention_days = some n)
    (he : db.exec (b.ChangeDataRetentionDays n) = Except.error e) :
    updateSchemaRetention db diff data b evs
      = (data, evs ++ [Event.Partial false, Event.Exec (b.ChangeDataRetentionDays n)],
         Except.error ("error updating data retention days on " ++ data.id ++ ": " ++ e)) := by
  simp [updateSchemaRetention, hd, he]

theorem updateSchemaManaged_success (db : Db) (diff : UpdateDiff) (data : ResourceData)
    (b : SchemaBuilder) (evs : List Event)
    (hm : ∀ m, diff.is_managed = some m →
        db.exec (if m then b.Manage else b.Unmanage) = Except.ok ())
    (hr : ∀ n, diff.data_retention_days = some n →
        db.exec (b.ChangeDataRetentionDays n) = Except.ok ()) :
    updateSchemaManaged db diff data b evs
      = ((ReadSchema db data).1,
         evs ++ updateManagedEvs b diff ++ [Event.Partial false]
           ++ updateRetentionEvs b diff ++ (ReadSchema db data).2.1,
         (ReadSchema db data).2.2) := by
  cases hmd : diff.is_managed with
  | none =>
    simp only [updateSchemaManaged, hmd, updateManagedEvs]
    rw [updateSchemaRetention_success db diff data b evs hr]
    simp
  | some m =>
    have hx := hm m hmd
    simp only [updateSchemaManaged, hmd, hx, updateManagedEvs]
    rw [updateSchemaRetention_success db diff data b _ hr]

theorem updateSchemaManaged_fail (db : Db) (diff : UpdateDiff) (data : ResourceData)
    (b : SchemaBuilder) (evs : List Event) (m : Bool) (e : String)
    (hmd : diff.is_managed = some m)
    (he : db.exec (if m then b.Manage else b.Unmanage) = Except.error e) :
    updateSchemaManaged db diff data b evs
      = (data, evs ++ [Event.Exec (if m then b.Manage else b.Unmanage)],
         Except.error ("error changing management state on " ++ data.id ++ ": " ++ e)) := by
  simp [updateSchemaManaged, hmd, he]

theorem updateSchemaManaged_retention_fail (db : Db) (diff : UpdateDiff)
    (data : ResourceData) (b : SchemaBuilder) (evs : List Event) (n : Int) (e : String)
    (hm : ∀ m, diff.is_managed = some m →
        db.exec (if m then b.Manage else b.Unmanage) = Except.ok ())
    (hnd : diff.data_retention_days = some n)
    (he : db.exec (b.ChangeDataRetentionDays n) = Except.error e) :
    updateSchemaManaged db diff data b evs
      = (data, evs ++ updateManagedEvs b diff
           ++ [Event.Partial false, Event.Exec (b.ChangeDataRetentionDays n)],
         Except.error ("error updating data retention days on " ++ data.id ++ ": " ++ e)) := by
  cases hmd : diff.is_managed with
  | none =>
    simp only [updateSchemaManaged, hmd, updateManagedEvs]
    rw [updateSchemaRetention_fail db diff data b evs n e hnd he]
    simp
  | some m =>
    have hx := hm m hmd
    simp only [updateSchemaManaged, hmd, hx, updateManagedEvs]
    rw [updateSchemaRetention_fail db diff data b _ n e hnd he]

/-- C1 (amended): UpdateSchema issues exactly one ALTER per changed attribute
(comment, is_managed, data_retention_days), each independently of the others,
and a failure while applying an attribute returns the wrapped error at once,
leaving the statements already executed for earlier attributes in place — no
re-attempt and no rollback; however the framework is informed of partial
progress only after the comment and is_managed clauses: partial mode is
switched off before the data_retention_days clause and no SetPartial is
recorded for that attribute. -/
theorem UpdateSchema_alter_per_attribute (db : Db) (diff : UpdateDiff)
    (data : ResourceData) (dn sn : String) (b : SchemaBuilder)
    (hid : splitSchemaID data.id = Except.ok (dn, sn))
    (hb : b = { name := sn, db := dn }) :
    ((∀ c, diff.comment = some c → db.exec (b.ChangeComment c) = Except.ok ()) →
     (∀ m, diff.is_managed = some m →
        db.exec (if m then b.Manage else b.Unmanage) = Except.ok ()) →
     (∀ n, diff.data_retention_days = some n →
        db.exec (b.ChangeDataRetentionDays n) = Except.ok ()) →
     UpdateSchema db diff data
       = ((ReadSchema db data).1,
          Event.Partial true :: (updateCommentEvs b diff ++ updateManagedEvs b diff
            ++ [Event.Partial false] ++ updateRetentionEvs b diff
            ++ (ReadSchema db data).2.1),
          (ReadSchema db data).2.2))
    ∧ (∀ c e, diff.comment = some c → db.exec (b.ChangeComment c) = Except.error e →
        UpdateSchema db diff data
          = (data, [Event.Partial true, Event.Exec (b.ChangeComment c)],
             Except.error ("error updating schema comment on " ++ data.id ++ ": " ++ e)))
    ∧ (∀ m e, diff.is_managed = some m →
        (∀ c, diff.comment = some c → db.exec (b.ChangeComment c) = Except.ok ()) →
        db.exec (if m then b.Manage else b.Unmanage) = Except.error e →
        UpdateSchema db diff data
          = (data, Event.Partial true :: (updateCommentEvs b diff
               ++ [Event.Exec (if m then b.Manage else b.Unmanage)]),
             Except.error ("error changing management state on " ++ data.id ++ ": " ++ e)))
    ∧ (∀ n e, diff.data_retention_days = some n →
        (∀ c, diff.comment = some c → db.exec (b.ChangeComment c) = Except.ok ()) →
        (∀ m, diff.is_managed = some m →
            db.exec (if m then b.Manage else b.Unmanage) = Except.ok ()) →
        db.exec (b.ChangeDataRetentionDays n) = Except.error e →
        UpdateSchema db diff data
          = (data, Event.Partial true :: (updateCommentEvs b diff ++ updateManagedEvs b diff
               ++ [Event.Partial false, Event.Exec (b.ChangeDataRetentionDays n)]),
             Except.error ("error updating data retention days on "
               ++ data.id ++ ": " ++ e))) := by
  subst hb
  refine ⟨?_, ?_, ?_, ?_⟩
  · intro hc hm hr
    cases hcd : diff.comment with
    | none =>
      simp only [UpdateSchema, hid, hcd, updateCommentEvs]
      rw [updateSchemaManaged_success db diff data _ _ hm hr]
      simp
    | some c =>
      have hx := hc c hcd
      simp only [UpdateSchema, hid, hcd, hx, updateCommentEvs]
      rw [updateSchemaManaged_success db diff data _ _ hm hr]
      simp
  · intro c e hcd he
    simp [UpdateSchema, hid, hcd, he]
  · intro m e hmd hc he
    cases hcd : diff.comment with
    | none =>
      simp only [UpdateSchema, hid, hcd, updateCommentEvs]
      rw [updateSchemaManaged_fail db diff data _ _ m e hmd he]
      simp
    | some c =>
      have hx := hc c hcd
      simp only [UpdateSchema, hid, hcd, hx, updateCommentEvs]
      rw [updateSchemaManaged_fail db diff data _ _ m e hmd he]
      simp
  · intro n e hnd hc hm he
    cases hcd : diff.comment with
    | none =>
      simp only [UpdateSchema, hid, hcd, updateCommentEvs]
      rw [updateSchemaManaged_retention_fail db diff data _ _ n e hm hnd he]
      simp
    | some c =>
      have hx := hc c hcd
      simp only [UpdateSchema, hid, hcd, hx, updateCommentEvs]
      rw [updateSchemaManaged_retention_fail db diff data _ _ n e hm hnd he]
      simp

/-- C1 fails as stated on the code: an update changing only
data_retention_days whose ALTER executes successfully completes with no
SetPartial recorded for data_retention_days anywhere in its trace, so the
framework is not informed of partial progress for that attribute. -/
theorem update_retention_progress_cex :
    (UpdateSchema allOkDb
        { comment := none, is_managed := none, data_retention_days := some 7 }
        sampleSchemaData).2.2 = Except.ok ()
    ∧ Event.Exec (SchemaBuilder.ChangeDataRetentionDays { name := "S", db := "D" } 7)
        ∈ (UpdateSchema allOkDb
            { comment := none, is_managed := none, data_retention_days := some 7 }
            sampleSchemaData).2.1
    ∧ (UpdateSchema allOkDb
        { comment := none, is_managed := none, data_retention_days := some 7 }
        sampleSchemaData).2.1.count (Event.SetPartial "data_retention_days") = 0 :=
  ⟨rfl, by decide, by decide⟩

/-- Concrete instance of the amended C1: with all three attributes changed and
every statement succeeding, the trace is Partial(true), the comment ALTER with
its SetPartial, the is_managed ALTER with its SetPartial, Partial(false), the
retention ALTER without any SetPartial, then the closing Read refresh. -/
theorem UpdateSchema_alter_per_attribute_witness :
    UpdateSchema allOkDb
        { comment := some "c2", is_managed := some true, data_retention_days := some 7 }
        sampleSchemaData
      = ((ReadSchema allOkDb sampleSchemaData).1,
         Event.Partial true
           :: (updateCommentEvs { name := "S", db := "D" }
                 { comment := some "c2", is_managed := some true,
                   data_retention_days := some 7 }
               ++ updateManagedEvs { name := "S", db := "D" }
                 { comment := some "c2", is_managed := some true,
                   data_retention_days := some 7 }
               ++ [Event.Partial false]
               ++ updateRetentionEvs { name := "S", db := "D" }
                 { comment := some "c2", is_managed := some true,
                   data_retention_days := some 7 }
               ++ (ReadSchema allOkDb sampleSchemaData).2.1),
         (ReadSchema allOkDb sampleSchemaData).2.2) :=
  (UpdateSchema_alter_per_attribute allOkDb
      { comment := some "c2", is_managed := some true, data_retention_days := some 7 }
      sampleSchemaData "D" "S" { name := "S", db := "D" } rfl rfl).1
    (fun _ _ => rfl) (fun _ _ => rfl) (fun _ _ => rfl)
